import Mathlib

/-!
# Verification of the `typen` Enforcer against its specification

Shallow embedding of `src/typen/_enforcer.py`, `src/typen/_typing.py` and the
call contract of `src/typen/_decorators.py`.

Python ordered dictionaries are embedded as association lists
(`List (String × α)`) with insertion-order semantics; Python list slicing
(which admits negative indices) is embedded by `pySliceFrom` / `pySliceTo`;
exceptions are embedded as `Except` errors.  The external `traits` library's
per-type validators are not part of the repository; their acceptance relation
is modelled from the specification's type-compatibility semantics (see
`validatePlain`).
-/

set_option autoImplicit false

namespace Typen

variable {α : Type}

/-! ## Python ordered-dict operations on association lists -/

/-- `k in d` for a Python dict embedded as an association list. -/
def dmem (m : List (String × α)) (k : String) : Bool :=
  m.any (fun p => p.1 == k)

/-- `d[k]` lookup (first binding; keys are unique by construction). -/
def dget (m : List (String × α)) (k : String) : Option α :=
  (m.find? (fun p => p.1 == k)).map (fun p => p.2)

/-- `d.pop(k)`: remove the binding of `k`, keeping the order of the rest. -/
def dpop (m : List (String × α)) (k : String) : List (String × α) :=
  m.filter (fun p => p.1 != k)

/-- `d[k] = v`: replace in place when the key exists, append otherwise. -/
def dset (m : List (String × α)) (k : String) (v : α) : List (String × α) :=
  match m with
  | [] => [(k, v)]
  | (k', v') :: rest =>
    if k' == k then (k, v) :: rest else (k', v') :: dset rest k v

/-- `d.update(extra)`: `dset` every binding of `extra` in order. -/
def dupdate (m extra : List (String × α)) : List (String × α) :=
  extra.foldl (fun acc p => dset acc p.1 p.2) m

/-! ## Python list slicing with possibly negative indices -/

/-- `xs[i:]` with Python's negative-index semantics. -/
def pySliceFrom (xs : List α) (i : Int) : List α :=
  if 0 ≤ i then xs.drop i.toNat else xs.drop ((xs.length + i).toNat)

/-- `xs[:i]` with Python's negative-index semantics. -/
def pySliceTo (xs : List α) (i : Int) : List α :=
  if 0 ≤ i then xs.take i.toNat else xs.take ((xs.length + i).toNat)

/-! ## Values, dtypes and annotations -/

/-- The numpy dtypes needed by the claims, ordered by safe castability. -/
inductive Dtype
  | int32
  | int64
  | float64
  deriving DecidableEq, Repr

/-- `np.can_cast(d, d', casting="safe")` on the dtypes above. -/
def Dtype.safeCastTo : Dtype → Dtype → Bool
  | .int32, _ => true
  | .int64, .int32 => false
  | .int64, _ => true
  | .float64, .float64 => true
  | .float64, _ => false

/-- The Python runtime values the claims exercise.  A float value carries an
integral payload `n` standing for the float `n.0` (only identity and runtime
type matter to the enforcer, never float arithmetic).  An ndarray is
abstracted to its dtype and length. -/
inductive PyVal
  | VInt (n : Int)
  | VFloat (n : Int)
  | VStr (s : String)
  | VBool (b : Bool)
  | VNone
  | VTuple (xs : List PyVal)
  | VListV (xs : List PyVal)
  | VArray (d : Dtype) (len : Nat)

/-- Plain (non-generic) annotation objects: built-in classes and the `None`
annotation. -/
inductive PlainTy
  | intT
  | floatT
  | strT
  | boolT
  | noneT
  deriving DecidableEq, Repr

/-- `__origin__` of a `typing` generic as inspected by `typing_to_trait`. -/
inductive GenOrigin
  | listO
  | tupleO
  | otherO (s : String)
  deriving DecidableEq, Repr

/-- A raw annotation object as found in `func.__annotations__`: either a
plain object (no `__origin__` attribute), a `traits` `Array(dtype)` trait, a
bare generic (`__args__ is None`) or a subscripted generic. -/
inductive Annot
  | plain (t : PlainTy)
  | arrayT (d : Dtype)
  | genericBare (o : GenOrigin)
  | genericArgs (o : GenOrigin) (args : List Annot)

/-! ## Python `repr` of the objects appearing in error messages -/

/-- `repr` of a value, as interpolated by `{!r}` in the error messages. -/
def pyRepr : PyVal → String
  | .VInt n => toString n
  | .VFloat n => toString n ++ ".0"
  | .VStr s => "'" ++ s ++ "'"
  | .VBool b => if b then "True" else "False"
  | .VNone => "None"
  | .VTuple _ => "<tuple>"
  | .VListV _ => "<list>"
  | .VArray _ _ => "<array>"

/-- `repr(type(value))`, as interpolated by `{!r}` in the error messages. -/
def pyTypeRepr : PyVal → String
  | .VInt _ => "<class 'int'>"
  | .VFloat _ => "<class 'float'>"
  | .VStr _ => "<class 'str'>"
  | .VBool _ => "<class 'bool'>"
  | .VNone => "<class 'NoneType'>"
  | .VTuple _ => "<class 'tuple'>"
  | .VListV _ => "<class 'list'>"
  | .VArray _ _ => "<class 'numpy.ndarray'>"

/-- `repr` of a plain annotation object. -/
def PlainTy.pyRepr : PlainTy → String
  | .intT => "<class 'int'>"
  | .floatT => "<class 'float'>"
  | .strT => "<class 'str'>"
  | .boolT => "<class 'bool'>"
  | .noneT => "None"

/-- Display form of a generic origin. -/
def GenOrigin.display : GenOrigin → String
  | .listO => "typing.List"
  | .tupleO => "typing.Tuple"
  | .otherO s => s

mutual

/-- `repr` of an annotation object. -/
def Annot.pyRepr : Annot → String
  | .plain t => t.pyRepr
  | .arrayT _ => "<traits Array>"
  | .genericBare o => o.display
  | .genericArgs o args => o.display ++ "[" ++ Annot.pyReprList args ++ "]"

/-- Comma-separated `repr`s of a list of annotations. -/
def Annot.pyReprList : List Annot → String
  | [] => ""
  | [a] => a.pyRepr
  | a :: rest => a.pyRepr ++ ", " ++ Annot.pyReprList rest

end

/-- `repr` of a numpy dtype. -/
def Dtype.pyRepr : Dtype → String
  | .int32 => "dtype('int32')"
  | .int64 => "dtype('int64')"
  | .float64 => "dtype('float64')"

/-- `repr` of a list of parameter names, as in
`"['a', 'c']"`. -/
def pyReprNames (names : List String) : String :=
  "[" ++ String.intercalate ", " (names.map (fun s => "'" ++ s ++ "'")) ++ "]"

/-! ## The traits validator acceptance relation

Modelled from the spec: the `traits` library (an external dependency, not part
of this repository) supplies the per-type validators that
`Enforcer.verify_args` / `verify_result` delegate to via
`validator.validate(None, None, value)`.  Its acceptance relation is taken
from the spec's type-compatibility semantics: exact nominal match, with
int-to-float widening allowed and float-to-int narrowing rejected; `None`
satisfies only the `None` annotation; an `Array` trait accepts ndarray values
(dtype safety is checked separately by the enforcer's own `astype` step). -/

/-- Acceptance of a value by the validator compiled from a plain annotation. -/
def validatePlain : PlainTy → PyVal → Bool
  | .intT, .VInt _ => true
  | .intT, _ => false
  | .floatT, .VInt _ => true
  | .floatT, .VFloat _ => true
  | .floatT, _ => false
  | .strT, .VStr _ => true
  | .strT, _ => false
  | .boolT, .VBool _ => true
  | .boolT, _ => false
  | .noneT, .VNone => true
  | .noneT, _ => false

/-- Acceptance of a value by the trait that `fs.add_trait(name, raw)` builds
from a raw annotation object.  Raw generic annotations are handed over
untranslated (the enforcer never calls `typing_to_trait`); the model treats
them as unconstrained — no theorem rests on that branch. -/
def validateTrait : Annot → PyVal → Bool
  | .plain t, v => validatePlain t v
  | .arrayT _, v =>
    match v with
    | .VArray _ _ => true
    | _ => false
  | .genericBare _, _ => true
  | .genericArgs _ _, _ => true

/-! ## `typing_to_trait` (src/typen/_typing.py) -/

/-- The validators `typing_to_trait` can produce: a passed-through raw
annotation, `traits_api.List()`, the element-validating `ValidatedList`, or
`traits_api.Tuple(...)`. -/
inductive Trait
  | TRaw (a : Annot)
  | TListAny
  | TValidatedList (item : Trait)
  | TTupleAny
  | TTupleOf (items : List Trait)

/-- Errors out of `typing_to_trait`: the `TypenError` it raises on an
unrecognized generic, or the `IndexError` from `__args__[0]` on an empty
argument list. -/
inductive TypingErr
  | typenError (msg : String)
  | indexErrorT

mutual

/-- `typing_to_trait`: convert a `typing` generic into a traits validator,
recursively for nested generics; a non-generic annotation is returned
unchanged; an unrecognized generic raises `TypenError`. -/
def typingToTrait : Annot → Except TypingErr Trait
  | .plain t => .ok (.TRaw (.plain t))
  | .arrayT d => .ok (.TRaw (.arrayT d))
  | .genericBare .listO => .ok .TListAny
  | .genericBare .tupleO => .ok .TTupleAny
  | .genericBare (.otherO s) =>
    .error (.typenError ("Could not convert " ++ s ++ " to trait"))
  | .genericArgs .listO args =>
    match args with
    | [] => .error .indexErrorT
    | contained :: _ =>
      match typingToTrait contained with
      | .ok t => .ok (.TValidatedList t)
      | .error e => .error e
  | .genericArgs .tupleO args =>
    match typingToTraitList args with
    | .ok ts => .ok (.TTupleOf ts)
    | .error e => .error e
  | .genericArgs (.otherO s) args =>
    .error (.typenError
      ("Could not convert " ++ s ++ "[" ++ Annot.pyReprList args ++ "] to trait"))

/-- `typing_to_trait` mapped over the arguments of a `Tuple[...]` generic. -/
def typingToTraitList : List Annot → Except TypingErr (List Trait)
  | [] => .ok []
  | a :: rest =>
    match typingToTrait a with
    | .error e => .error e
    | .ok t =>
      match typingToTraitList rest with
      | .error e => .error e
      | .ok ts => .ok (t :: ts)

end

mutual

/-- Acceptance of a value by a translated validator.  `ValidatedList`
additionally validates every element; `Tuple(...)` enforces exact arity and
per-slot validation. -/
def validateTrans : Trait → PyVal → Bool
  | .TRaw a, v => validateTrait a v
  | .TListAny, v =>
    match v with
    | .VListV _ => true
    | _ => false
  | .TValidatedList t, v =>
    match v with
    | .VListV xs => validateTransAll t xs
    | _ => false
  | .TTupleAny, v =>
    match v with
    | .VTuple _ => true
    | .VListV _ => true
    | _ => false
  | .TTupleOf ts, v =>
    match v with
    | .VTuple xs => validateTransSlots ts xs
    | _ => false

/-- Every element of a list validates against the item trait. -/
def validateTransAll (t : Trait) : List PyVal → Bool
  | [] => true
  | x :: xs => validateTrans t x && validateTransAll t xs

/-- Per-slot validation with exact arity. -/
def validateTransSlots : List Trait → List PyVal → Bool
  | [], [] => true
  | t :: ts, x :: xs => validateTrans t x && validateTransSlots ts xs
  | _, _ => false

end

/-! ## The Enforcer (src/typen/_enforcer.py) -/

/-- `inspect.Parameter.kind`, restricted to the kinds the enforcer
distinguishes. -/
inductive ParamKind
  | normal
  | varPositional
  | varKeyword
  deriving DecidableEq, Repr

/-- One formal parameter from `inspect.signature(func).parameters`: its name,
kind and declared default (`none` is `inspect.Parameter.empty`). -/
structure Param where
  name : String
  kind : ParamKind
  default : Option PyVal

/-- A callable as the enforcer sees it: `__name__`, the ordered parameter
list, and `func.__annotations__` as an ordered dict.  An annotation value of
`none` is the module-level `UNSPECIFIED` sentinel (only ever present after a
previous `Enforcer.__init__` mutated the mapping). -/
structure PyFunc where
  fname : String
  params : List Param
  anns : List (String × Option Annot)

/-- The `Arg` records of `self.args` (name and declared type; `none` is the
`UNSPECIFIED` sentinel). -/
structure Arg where
  name : String
  type : Option Annot

/-- The state `Enforcer.__init__` leaves behind.  `packed_*_spec`, the `Arg`
types and `returns` use `none` for the `UNSPECIFIED` sentinel; the compiled
traits validators are represented by the annotation they were built from. -/
structure Enforcer where
  funcName : String
  packed_args_name : Option String := none
  packed_args_pos : Nat := 0
  packed_args_spec : Option Annot := none
  packed_kwargs_name : Option String := none
  num_normal_keywords : Nat := 0
  packed_kwargs_spec : Option Annot := none
  ignored_self_name : Option String := none
  selfAlias : Option String := none
  args : List Arg := []
  default_kwargs : List (String × PyVal) := []
  returns : Option Annot := none

/-- Exceptions escaping `Enforcer.__init__`: the two construction-time
errors, plus the `IndexError` from `list(params.keys())[0]` when
`ignore_self` is set on a callable with no parameters left. -/
inductive InitError
  | unspecifiedParam (msg : String)
  | unspecifiedReturn (msg : String)
  | initIndexError

/-- `random_attribute_name()` draws 15 random lowercase letters; the model
uses a fixed representative (the spec allows any collision-free aliasing
scheme, noting randomness is an implementation artifact). -/
def random_attribute_name : String := "qjwhxkzpvmbtyur"

/-- Mutable state threaded through the variadic-parameter scan at the top of
`Enforcer.__init__` (lines 30-61). -/
structure VarScan where
  spec : List (String × Option Annot)
  params : List Param
  packed_args_name : Option String := none
  packed_args_pos : Nat := 0
  packed_args_spec : Option Annot := none
  packed_kwargs_name : Option String := none
  num_normal_keywords : Nat := 0
  packed_kwargs_spec : Option Annot := none

/-- The `for i, (name, param) in enumerate(list(params.items()))` loop of
`Enforcer.__init__`: record and pop the variadic-positional and
variadic-keyword parameters; `num_normal_keywords` is the size of `params`
right after the variadic-keyword pop. -/
def varScan (require_args : Bool) :
    List (Nat × Param) → VarScan → Except InitError VarScan
  | [], st => .ok st
  | (i, p) :: rest, st =>
    match p.kind with
    | .normal => varScan require_args rest st
    | .varPositional =>
      let st := { st with packed_args_name := some p.name, packed_args_pos := i }
      match dget st.spec p.name with
      | some v =>
        varScan require_args rest
          { st with
            packed_args_spec := v
            spec := dpop st.spec p.name
            params := st.params.filter (fun q => q.name != p.name) }
      | none =>
        if require_args then
          .error (.unspecifiedParam
            ("Packed positional argument '" ++ p.name ++ "' must be given a type hint"))
        else
          varScan require_args rest
            { st with params := st.params.filter (fun q => q.name != p.name) }
    | .varKeyword =>
      let st := { st with packed_kwargs_name := some p.name }
      match dget st.spec p.name with
      | some v =>
        let params' := st.params.filter (fun q => q.name != p.name)
        varScan require_args rest
          { st with
            packed_kwargs_spec := v
            spec := dpop st.spec p.name
            params := params'
            num_normal_keywords := params'.length }
      | none =>
        if require_args then
          .error (.unspecifiedParam
            ("Packed keyword argument '" ++ p.name ++ "' must be given a type hint"))
        else
          let params' := st.params.filter (fun q => q.name != p.name)
          varScan require_args rest
            { st with params := params', num_normal_keywords := params'.length }

/-- `Enforcer.__init__(func, require_args, require_return, ignore_self)`.
Besides the enforcer it returns the final contents of
`func.__annotations__`, which the constructor mutates in place (it aliases
`spec = func.__annotations__` and pops/updates it throughout). -/
def enforcerInit (f : PyFunc) (require_args require_return ignore_self : Bool) :
    Except InitError (Enforcer × List (String × Option Annot)) :=
  match varScan require_args ((List.range f.params.length).zip f.params)
      { spec := f.anns, params := f.params } with
  | .error e => .error e
  | .ok st =>
    if ignore_self && st.params.isEmpty then .error .initIndexError else
    let ignored : Option String :=
      if ignore_self then st.params.head?.map Param.name else none
    let (params1, spec1) : List Param × List (String × Option Annot) :=
      match ignored with
      | none => (st.params, st.spec)
      | some n => (st.params.filter (fun q => q.name != n), dpop st.spec n)
    let selfAlias : Option String :=
      if params1.any (fun q => q.name == "self") then some random_attribute_name
      else none
    let (params2, spec2) : List Param × List (String × Option Annot) :=
      match selfAlias with
      | none => (params1, spec1)
      | some a =>
        let selfParam :=
          (params1.find? (fun q => q.name == "self")).getD ⟨"self", .normal, none⟩
        let params' :=
          params1.filter (fun q => q.name != "self") ++ [{ selfParam with name := a }]
        let spec' :=
          match dget spec1 "self" with
          | none => spec1
          | some v => dpop spec1 "self" ++ [(a, v)]
        (params', spec')
    let unspecifiedKeys := (params2.filter (fun q => ! dmem spec2 q.name)).map Param.name
    if require_args && ! unspecifiedKeys.isEmpty then
      .error (.unspecifiedParam
        ("The following parameters must be given type hints: " ++
          pyReprNames unspecifiedKeys))
    else
      let spec3 :=
        dupdate spec2 (unspecifiedKeys.map (fun k => (k, (none : Option Annot))))
      let finish (returns : Option Annot) (specF : List (String × Option Annot)) :
          Enforcer × List (String × Option Annot) :=
        ({ funcName := f.fname
           packed_args_name := st.packed_args_name
           packed_args_pos := st.packed_args_pos
           packed_args_spec := st.packed_args_spec
           packed_kwargs_name := st.packed_kwargs_name
           num_normal_keywords := st.num_normal_keywords
           packed_kwargs_spec := st.packed_kwargs_spec
           ignored_self_name := ignored
           selfAlias := selfAlias
           args := params2.map (fun q => ⟨q.name, (dget specF q.name).join⟩)
           default_kwargs :=
             params2.filterMap (fun q => q.default.map (fun d => (q.name, d)))
           returns := returns }, specF)
      match dget spec3 "return" with
      | some r => .ok (finish r (dpop spec3 "return"))
      | none =>
        if require_return then
          .error (.unspecifiedReturn "A return type hint must be specified.")
        else .ok (finish none spec3)

/-- Exceptions escaping `verify_args` / `verify_result`: the unhandled
`IndexError` from `self.args[i]`, `ParameterTypeError` (message only) and
`ReturnTypeError` (message plus the `return_value` attribute set on the
exception instance). -/
inductive VerifyError
  | indexError
  | paramError (msg : String)
  | returnError (msg : String) (return_value : PyVal)

/-- Lines 130-139 of `verify_args`: discard the self-like value, from the
keyword mapping when it was passed by keyword, from the front of the
positional values otherwise. -/
def stripSelf (e : Enforcer) (passed_args : List PyVal)
    (passed_kwargs : List (String × PyVal)) :
    List PyVal × List (String × PyVal) :=
  match e.ignored_self_name with
  | none => (passed_args, passed_kwargs)
  | some n =>
    if dmem passed_kwargs n then
      (passed_args, passed_kwargs.filter (fun p => p.1 != n))
    else (passed_args.drop 1, passed_kwargs)

/-- Lines 143-145: split trailing positional values off at
`packed_args_pos`.  Returns `(packed, remaining normal)`. -/
def splitPackedArgs (e : Enforcer) (passed_args : List PyVal) :
    List PyVal × List PyVal :=
  match e.packed_args_name with
  | none => ([], passed_args)
  | some _ => (passed_args.drop e.packed_args_pos, passed_args.take e.packed_args_pos)

/-- Lines 146-154: split the keyword entries at position
`num_normal_keywords - 1` (a Python slice index, so `-1` wraps around).
Returns `(packed, remaining normal)`. -/
def splitPackedKwargs (e : Enforcer) (kw : List (String × PyVal)) :
    List (String × PyVal) × List (String × PyVal) :=
  match e.packed_kwargs_name with
  | none => ([], kw)
  | some _ =>
    let idx : Int := (e.num_normal_keywords : Int) - 1
    (pySliceFrom kw idx, pySliceTo kw idx)

/-- Lines 156-159: `traits[self.args[i].name] = arg` for each positional
value; indexing past the end of `self.args` raises `IndexError`. -/
def buildTraits : List Arg → List PyVal → Except VerifyError (List (String × PyVal))
  | _, [] => .ok []
  | [], _ :: _ => .error .indexError
  | a :: rest, v :: vs =>
    match buildTraits rest vs with
    | .error err => .error err
    | .ok t => .ok ((a.name, v) :: t)

/-- The `ParameterTypeError` message of lines 201-207. -/
def paramMsg (name fname : String) (ty : Annot) (v : PyVal) : String :=
  "The '" ++ name ++ "' parameter of '" ++ fname ++ "' must be " ++ ty.pyRepr ++
    ", but a value of " ++ pyRepr v ++ " " ++ pyTypeRepr v ++ " was specified."

/-- Lines 170-191: extra numpy-dtype validation, in `self.args` order —
an `Array`-typed parameter holding an ndarray must be safely castable to the
declared dtype. -/
def arrayCheck (fname : String) :
    List Arg → List (String × PyVal) → Except VerifyError Unit
  | [], _ => .ok ()
  | a :: rest, traits =>
    match dget traits a.name with
    | none => arrayCheck fname rest traits
    | some v =>
      match a.type, v with
      | some (.arrayT d), .VArray vd _ =>
        if vd.safeCastTo d then arrayCheck fname rest traits
        else
          .error (.paramError
            ("The '" ++ a.name ++ "' parameter of '" ++ fname ++
              "' could not be cast to an array of dtype " ++ d.pyRepr))
      | _, _ => arrayCheck fname rest traits

/-- Lines 193-207: validate each normal parameter in declaration order,
skipping `UNSPECIFIED` types and absent values; the first failure raises. -/
def normalCheck (fname : String) :
    List Arg → List (String × PyVal) → Except VerifyError Unit
  | [], _ => .ok ()
  | a :: rest, traits =>
    match a.type with
    | none => normalCheck fname rest traits
    | some ty =>
      match dget traits a.name with
      | none => normalCheck fname rest traits
      | some v =>
        if validateTrait ty v then normalCheck fname rest traits
        else .error (.paramError (paramMsg a.name fname ty v))

/-- Lines 209-226: validate every variadic-positional value when the
variadic spec is declared. -/
def packedArgsCheck (e : Enforcer) : List PyVal → Except VerifyError Unit
  | [] => .ok ()
  | v :: vs =>
    match e.packed_args_spec with
    | none => .ok ()
    | some ty =>
      if validateTrait ty v then packedArgsCheck e vs
      else
        .error (.paramError
          ("The '" ++ (e.packed_args_name.getD "") ++ "' parameters of '" ++
            e.funcName ++ "' must be " ++ ty.pyRepr ++ ", but a value of " ++
            pyRepr v ++ " " ++ pyTypeRepr v ++ " was specified."))

/-- Lines 227-245: validate every variadic-keyword entry when the variadic
spec is declared. -/
def packedKwargsCheck (e : Enforcer) :
    List (String × PyVal) → Except VerifyError Unit
  | [] => .ok ()
  | (k, v) :: rest =>
    match e.packed_kwargs_spec with
    | none => .ok ()
    | some ty =>
      if validateTrait ty v then packedKwargsCheck e rest
      else
        .error (.paramError
          ("The '" ++ (e.packed_kwargs_name.getD "") ++ "' keywords of '" ++
            e.funcName ++ "' must have values of type " ++ ty.pyRepr ++
            ", but '" ++ k ++ "':" ++ pyRepr v ++ " " ++ pyTypeRepr v ++
            " was specified."))

/-- `Enforcer.verify_args(passed_args, passed_kwargs)`. -/
def Enforcer.verify_args (e : Enforcer) (passed_args : List PyVal)
    (passed_kwargs : List (String × PyVal)) : Except VerifyError Unit :=
  let stripped := stripSelf e passed_args passed_kwargs
  let asplit := splitPackedArgs e stripped.1
  let ksplit := splitPackedKwargs e stripped.2
  let packed_args := asplit.1
  let pa := asplit.2
  let packed_kwargs := ksplit.1
  let pk := ksplit.2
  match buildTraits e.args pa with
  | .error err => .error err
  | .ok traits0 =>
    let traits1 := dupdate traits0 pk
    -- lines 162-164: an entry keyed "self" is re-keyed to the random alias;
    -- when no alias exists the Python code keys it under None, where nothing
    -- ever reads it again, so the model drops it
    let traits2 :=
      match dget traits1 "self" with
      | none => traits1
      | some v =>
        match e.selfAlias with
        | some a => dset (dpop traits1 "self") a v
        | none => dpop traits1 "self"
    let traits3 :=
      e.default_kwargs.foldl
        (fun acc p => if dmem acc p.1 then acc else acc ++ [p]) traits2
    match arrayCheck e.funcName e.args traits3 with
    | .error err => .error err
    | .ok _ =>
      match normalCheck e.funcName e.args traits3 with
      | .error err => .error err
      | .ok _ =>
        match packedArgsCheck e packed_args with
        | .error err => .error err
        | .ok _ => packedKwargsCheck e packed_kwargs

/-- The `ReturnTypeError` message of lines 269-274. -/
def returnMsg (fname : String) (ty : Annot) (v : PyVal) : String :=
  "The return type of '" ++ fname ++ "' must be " ++ ty.pyRepr ++
    ", but a value of " ++ pyRepr v ++ " " ++ pyTypeRepr v ++ " was returned."

/-- `Enforcer.verify_result(value)` (lines 247-276). -/
def Enforcer.verify_result (e : Enforcer) (value : PyVal) :
    Except VerifyError Unit :=
  match e.returns with
  | none => .ok ()
  | some ret =>
    let arrayFailure : Option String :=
      match ret, value with
      | .arrayT d, .VArray vd _ => if vd.safeCastTo d then none else some d.pyRepr
      | _, _ => none
    match arrayFailure with
    | some drepr =>
      .error (.returnError
        ("The return value of '" ++ e.funcName ++
          "' could not be cast to an array of dtype " ++ drepr) value)
    | none =>
      if validateTrait ret value then .ok ()
      else .error (.returnError (returnMsg e.funcName ret value) value)

/-- The wrapper `new_func` installed by `EnforceTypeHints.decorate`
(src/typen/_decorators.py lines 96-103): `verify_args`, then the wrapped
callable, then `verify_result`, returning the callable's result unchanged. -/
def decoratedCall (e : Enforcer)
    (f : List PyVal → List (String × PyVal) → PyVal)
    (args : List PyVal) (kwargs : List (String × PyVal)) :
    Except VerifyError PyVal :=
  match e.verify_args args kwargs with
  | .error err => .error err
  | .ok _ =>
    let result := f args kwargs
    match e.verify_result result with
    | .error err => .error err
    | .ok _ => .ok result

/-! ## Concrete callables used by the theorems -/

/-- Shorthand for the `int` annotation. -/
def aInt : Annot := .plain .intT

/-- Shorthand for the `float` annotation. -/
def aFloat : Annot := .plain .floatT

/-- Shorthand for the `str` annotation. -/
def aStr : Annot := .plain .strT

/-- Shorthand for the `bool` annotation. -/
def aBool : Annot := .plain .boolT

/-- Placeholder enforcer returned by `mkEnforcer` when construction fails
(never relied upon: every use is paired with a proof that construction
succeeds). -/
def emptyEnforcer : Enforcer := { funcName := "" }

/-- The enforcer built by a successful construction. -/
def mkEnforcer (f : PyFunc) (require_args require_return ignore_self : Bool) :
    Enforcer :=
  match enforcerInit f require_args require_return ignore_self with
  | .ok p => p.1
  | .error _ => emptyEnforcer

/-- `def example_function(a: int, b, c: int = "a", d=6) -> float` — the
spec's eager-default-validation example. -/
def fBadDefault : PyFunc :=
  { fname := "example_function"
    params :=
      [⟨"a", .normal, none⟩, ⟨"b", .normal, none⟩,
       ⟨"c", .normal, some (.VStr "a")⟩, ⟨"d", .normal, some (.VInt 6)⟩]
    anns := [("a", some aInt), ("c", some aInt), ("return", some aFloat)] }

/-- `def example_method(self, *foos: int, **bars: str) -> bool` — the method
of `test_enforce_type_hints_packed_args_kwargs_method`. -/
def fPackedMethod : PyFunc :=
  { fname := "example_method"
    params :=
      [⟨"self", .normal, none⟩, ⟨"foos", .varPositional, none⟩,
       ⟨"bars", .varKeyword, none⟩]
    anns := [("foos", some aInt), ("bars", some aStr), ("return", some aBool)] }

/-- `def __init__(self, a: int, b: int)` — the constructor of
`test_strict_type_hints_on_method`, decorated with `strict_type_hints`. -/
def fInitMethod : PyFunc :=
  { fname := "__init__"
    params := [⟨"self", .normal, none⟩, ⟨"a", .normal, none⟩, ⟨"b", .normal, none⟩]
    anns := [("a", some aInt), ("b", some aInt)] }

/-- `typing.List[int]`. -/
def aListInt : Annot := .genericArgs .listO [aInt]

/-- `typing.Dict[str, int]` — a generic form `typing_to_trait` does not
recognize. -/
def aDictStrInt : Annot := .genericArgs (.otherO "typing.Dict") [aStr, aInt]

/-- `def test_function(a: typing.List[int], b: typing.Dict[str, int])`. -/
def fGenerics : PyFunc :=
  { fname := "test_function"
    params := [⟨"a", .normal, none⟩, ⟨"b", .normal, none⟩]
    anns := [("a", some aListInt), ("b", some aDictStrInt)] }

/-- `def example_function(a: int, b, c: str = "aa", d=5)` — the spec's
declaration-order example. -/
def fOrder : PyFunc :=
  { fname := "example_function"
    params :=
      [⟨"a", .normal, none⟩, ⟨"b", .normal, none⟩,
       ⟨"c", .normal, some (.VStr "aa")⟩, ⟨"d", .normal, some (.VInt 5)⟩]
    anns := [("a", some aInt), ("c", some aStr)] }

/-- `def example_function(a: int, b: str)` — used for the
positional/keyword precedence check. -/
def fPrec : PyFunc :=
  { fname := "example_function"
    params := [⟨"a", .normal, none⟩, ⟨"b", .normal, none⟩]
    anns := [("a", some aInt), ("b", some aStr)] }

/-- `def example_function(a: int, b: int) -> int` — the spec's
numeric-coercion example. -/
def fIntInt : PyFunc :=
  { fname := "example_function"
    params := [⟨"a", .normal, none⟩, ⟨"b", .normal, none⟩]
    anns := [("a", some aInt), ("b", some aInt), ("return", some aInt)] }

/-- `def f(x: float) -> float`. -/
def fFloat : PyFunc :=
  { fname := "f"
    params := [⟨"x", .normal, none⟩]
    anns := [("x", some aFloat), ("return", some aFloat)] }

/-- `def example_function(a, b: int, c)` — the spec's required-annotation
example. -/
def fMissing : PyFunc :=
  { fname := "example_function"
    params := [⟨"a", .normal, none⟩, ⟨"b", .normal, none⟩, ⟨"c", .normal, none⟩]
    anns := [("b", some aInt)] }

/-- `def example_function(a, *args)` — an unannotated variadic next to an
unannotated normal parameter. -/
def fMissingVar : PyFunc :=
  { fname := "example_function"
    params := [⟨"a", .normal, none⟩, ⟨"args", .varPositional, none⟩]
    anns := [] }

/-- `def f(a)` — no annotations at all. -/
def fNoRet : PyFunc :=
  { fname := "f", params := [⟨"a", .normal, none⟩], anns := [] }

/-- `def f(a) -> int`. -/
def fRetInt : PyFunc :=
  { fname := "f", params := [⟨"a", .normal, none⟩], anns := [("return", some aInt)] }

/-- `def f(a) -> Array(numpy.int32)`. -/
def fRetArr : PyFunc :=
  { fname := "f"
    params := [⟨"a", .normal, none⟩]
    anns := [("return", some (.arrayT .int32))] }

/-- `def f(self: float, a: int, b, *args: str) -> int` — fully annotated
except `b`, with a normal parameter literally named `self` and an annotated
variadic; exercises every in-place mutation of `func.__annotations__`. -/
def fMutate : PyFunc :=
  { fname := "f"
    params :=
      [⟨"self", .normal, none⟩, ⟨"a", .normal, none⟩, ⟨"b", .normal, none⟩,
       ⟨"args", .varPositional, none⟩]
    anns :=
      [("self", some aFloat), ("a", some aInt), ("args", some aStr),
       ("return", some aInt)] }

/-- `def f(a: int, b: str)` — no variadic-positional parameter; used for the
over-supplied-positional check. -/
def fArity : PyFunc :=
  { fname := "f"
    params := [⟨"a", .normal, none⟩, ⟨"b", .normal, none⟩]
    anns := [("a", some aInt), ("b", some aStr)] }

/-! ## Supporting lemmas -/

/-- Feeding `buildTraits` more positional values than there are `Arg`
records always hits the `IndexError` branch. -/
theorem buildTraits_oversupply :
    ∀ (args : List Arg) (vals : List PyVal), args.length < vals.length →
      buildTraits args vals = .error .indexError := by
  intro args
  induction args with
  | nil =>
    intro vals h
    cases vals with
    | nil => simp at h
    | cons v vs => rfl
  | cons a rest ih =>
    intro vals h
    cases vals with
    | nil => simp at h
    | cons v vs =>
      have h' : rest.length < vs.length := by
        simpa [Nat.succ_lt_succ_iff] using h
      simp [buildTraits, ih vs h']

/-! ## Claim theorems -/

/-- Claim C1, counterexample: for the spec's own example
`(a: int, b, c: int = "a", d=6) -> float`, whose default for `c` violates
`c`'s declared type, `Enforcer.__init__` succeeds — construction does not
validate defaults and raises no `ParameterTypeError`, contradicting the
claimed eager validation. -/
theorem claim_C1_counterexample :
    (enforcerInit fBadDefault false false false).toOption.isSome = true := rfl

/-- Claim C1, amended: constructing the enforcer records declared defaults
without validating them, so construction over a callable with an invalid
default succeeds; the invalid default is first reported at `verify_args`
time, when a call omitting the parameter fills in the default and
`ParameterTypeError` is raised naming that parameter. -/
theorem claim_C1_amended_deferred_default :
    (enforcerInit fBadDefault false false false).toOption.isSome = true ∧
    (mkEnforcer fBadDefault false false false).verify_args [] [] =
      .error (.paramError
        ("The 'c' parameter of 'example_function' must be <class 'int'>, " ++
          "but a value of 'a' <class 'str'> was specified.")) :=
  ⟨rfl, rfl⟩

/-- Claim C2: for the method `(self, *foos: int, **bars: str)` with the
self-like first parameter stripped, the repository's own test calls
`inst.example_method(1, 2, 3, a="a", b="b", c="c")` and expects the split to
validate `1, 2, 3` against the variadic-positional spec; instead
`verify_args` splits the positional values at `packed_args_pos`, which still
counts the stripped self, keeps one value in a normal slot that does not
exist, and dies with `IndexError`. -/
theorem claim_C2_method_variadic_split :
    (enforcerInit fPackedMethod false false true).toOption.isSome = true ∧
    (mkEnforcer fPackedMethod false false true).verify_args
        [.VNone, .VInt 1, .VInt 2, .VInt 3]
        [("a", .VStr "a"), ("b", .VStr "b"), ("c", .VStr "c")] =
      .error .indexError :=
  ⟨rfl, rfl⟩

/-- Claim C3: constructing the enforcer for `__init__(self, a: int, b: int)`
with `require_return=True` and `ignore_self=True` (exactly what
`strict_type_hints` on a method does) raises `UnspecifiedReturnTypeError`:
no designated exempt set of method names exists anywhere in
`Enforcer.__init__`, although the repository's own test asserts that
`__init__` is exempt. -/
theorem claim_C3_init_not_exempt :
    enforcerInit fInitMethod true true true =
      .error (.unspecifiedReturn "A return type hint must be specified.") := rfl

/-- Claim C4: `Enforcer.__init__` never invokes `typing_to_trait`.  For
`(a: typing.List[int], b: typing.Dict[str, int])` construction succeeds and
stores the raw generic annotations unexpanded, even though the translator
would expand `typing.List[int]` into the element-checking `ValidatedList`
validator (which accepts `[1, 2]` and rejects `[1, "a"]`) and would fail
loudly with `TypenError` on the unrecognized `typing.Dict[str, int]`. -/
theorem claim_C4_translator_not_invoked :
    (enforcerInit fGenerics false false false).toOption.isSome = true ∧
    (mkEnforcer fGenerics false false false).args =
      [⟨"a", some aListInt⟩, ⟨"b", some aDictStrInt⟩] ∧
    typingToTrait aListInt = .ok (.TValidatedList (.TRaw aInt)) ∧
    validateTrans (.TValidatedList (.TRaw aInt)) (.VListV [.VInt 1, .VInt 2]) =
      true ∧
    validateTrans (.TValidatedList (.TRaw aInt)) (.VListV [.VInt 1, .VStr "a"]) =
      false ∧
    typingToTrait aDictStrInt =
      .error (.typenError
        "Could not convert typing.Dict[<class 'str'>, <class 'int'>] to trait") :=
  ⟨rfl, rfl, rfl, rfl, rfl, rfl⟩

/-- Claim C5, counterexample: for `(a: int, b: str)`,
`verify_args(["bad"], {"a": 1})` succeeds — the validated value for `a` is
the keyword-supplied `1`, not the positionally supplied `"bad"`
(`traits.update(**passed_kwargs)` overwrites the positional binding), so the
positionally supplied value does not take precedence as claimed. -/
theorem claim_C5_counterexample :
    (enforcerInit fPrec false false false).toOption.isSome = true ∧
    (mkEnforcer fPrec false false false).verify_args [.VStr "bad"]
      [("a", .VInt 1)] = .ok () :=
  ⟨rfl, rfl⟩

/-- Claim C5, amended: validation proceeds in declaration order and the
first violated parameter raises — for `(a: int, b, c: str = "aa", d=5)`
called as `verify_args(["bad", "ok", 0, "ok"], {})` the error names `a`,
not `c` — but when the same parameter is supplied both positionally and
redundantly by keyword, the keyword value overwrites the positional one and
is the one validated. -/
theorem claim_C5_order_amended :
    (mkEnforcer fOrder false false false).verify_args
        [.VStr "bad", .VStr "ok", .VInt 0, .VStr "ok"] [] =
      .error (.paramError
        ("The 'a' parameter of 'example_function' must be <class 'int'>, " ++
          "but a value of 'bad' <class 'str'> was specified.")) ∧
    (mkEnforcer fPrec false false false).verify_args [.VStr "bad"]
      [("a", .VInt 1)] = .ok () ∧
    (mkEnforcer fPrec false false false).verify_args [.VInt 1]
        [("a", .VStr "bad")] =
      .error (.paramError
        ("The 'a' parameter of 'example_function' must be <class 'int'>, " ++
          "but a value of 'bad' <class 'str'> was specified.")) :=
  ⟨rfl, rfl, rfl⟩

/-- Claim C6: numeric coercion is widening-only.  Any int value satisfies a
`float`-typed parameter and a `float`-typed return; any float value fails an
`int`-typed parameter and an `int`-typed return; in particular for
`(a: int, b: int) -> int`, `verify_args` with `(1.0, 2)` raises
`ParameterTypeError` naming `a`, and `verify_result(1.0)` raises
`ReturnTypeError`. -/
theorem claim_C6_numeric_widening :
    (∀ n : Int, (mkEnforcer fFloat false false false).verify_args [.VInt n] [] =
      .ok ()) ∧
    (∀ n : Int, (mkEnforcer fFloat false false false).verify_result (.VInt n) =
      .ok ()) ∧
    (∀ m : Int, (mkEnforcer fIntInt false false false).verify_args
        [.VFloat m, .VInt 2] [] =
      .error (.paramError (paramMsg "a" "example_function" aInt (.VFloat m)))) ∧
    (mkEnforcer fIntInt false false false).verify_args [.VFloat 1, .VInt 2] [] =
      .error (.paramError
        ("The 'a' parameter of 'example_function' must be <class 'int'>, " ++
          "but a value of 1.0 <class 'float'> was specified.")) ∧
    (∀ m : Int, (mkEnforcer fIntInt false false false).verify_result (.VFloat m) =
      .error (.returnError (returnMsg "example_function" aInt (.VFloat m))
        (.VFloat m))) :=
  ⟨fun _ => rfl, fun _ => rfl, fun _ => rfl, rfl, fun _ => rfl⟩

/-- Claim C7, counterexample: for `(a, *args)` under `require_args=True`,
where both `a` and `args` lack annotations, construction raises
`UnspecifiedParameterTypeError` whose message names only the variadic
parameter — the quoted name `'a'` never occurs in it, so the message does
not list every offending parameter. -/
theorem claim_C7_counterexample :
    enforcerInit fMissingVar true false false =
      .error (.unspecifiedParam
        "Packed positional argument 'args' must be given a type hint") ∧
    ¬ ([Char.ofNat 39, 'a', Char.ofNat 39] <:+:
      "Packed positional argument 'args' must be given a type hint".toList) :=
  ⟨rfl, by decide⟩

/-- Claim C7, amended: under `require_args=True` an unannotated variadic
parameter raises `UnspecifiedParameterTypeError` immediately, naming only
that variadic; when every variadic is annotated or absent, construction
raises `UnspecifiedParameterTypeError` listing every unannotated normal
parameter in declaration order — for `(a, b: int, c)` the message lists
`['a', 'c']`. -/
theorem claim_C7_unspecified_params_amended :
    enforcerInit fMissing true false false =
      .error (.unspecifiedParam
        "The following parameters must be given type hints: ['a', 'c']") ∧
    enforcerInit fMissingVar true false false =
      .error (.unspecifiedParam
        "Packed positional argument 'args' must be given a type hint") :=
  ⟨rfl, rfl⟩

/-- Claim C8: when the return annotation is absent `verify_result` accepts
every value without inspecting it; when present and violated it raises
`ReturnTypeError` with the documented message and always carries the actual
returned value in the `return_value` attribute — for ordinary validation
failures and for array-dtype cast failures alike — and through the decorator
the wrapped callable has already executed, its result appearing in the
error. -/
theorem claim_C8_return_error_contract :
    (∀ v : PyVal, (mkEnforcer fNoRet false false false).verify_result v =
      .ok ()) ∧
    (mkEnforcer fRetInt false false false).verify_result (.VStr "bad") =
      .error (.returnError
        ("The return type of 'f' must be <class 'int'>, but a value of " ++
          "'bad' <class 'str'> was returned.") (.VStr "bad")) ∧
    (∀ v : PyVal,
      match (mkEnforcer fRetInt false false false).verify_result v with
      | .error (.returnError _ rv) => rv = v
      | _ => True) ∧
    (mkEnforcer fRetArr false false false).verify_result (.VArray .float64 3) =
      .error (.returnError
        ("The return value of 'f' could not be cast to an array of dtype " ++
          "dtype('int32')") (.VArray .float64 3)) ∧
    decoratedCall (mkEnforcer fRetInt false false false)
        (fun _ _ => .VStr "bad") [.VInt 0] [] =
      .error (.returnError
        ("The return type of 'f' must be <class 'int'>, but a value of " ++
          "'bad' <class 'str'> was returned.") (.VStr "bad")) :=
  ⟨fun _ => rfl, rfl, fun v => by cases v <;> trivial, rfl, rfl⟩

/-- Claim C9: `Enforcer.__init__` mutates `func.__annotations__` in place:
for `f(self: float, a: int, b, *args: str) -> int` the mapping afterwards
has lost the `return` and variadic entries, holds the annotation of the
parameter literally named `self` under the random alias, and holds the
`UNSPECIFIED` sentinel for the unannotated `b`; consequently a second
construction over the same callable with `require_return=True` raises
`UnspecifiedReturnTypeError` although the source declared a return
annotation. -/
theorem claim_C9_annotations_mutated :
    (enforcerInit fMutate false false false).toOption.map Prod.snd =
      some [("a", some aInt), (random_attribute_name, some aFloat),
        ("b", none)] ∧
    enforcerInit
        { fMutate with
          anns := [("a", some aInt), (random_attribute_name, some aFloat),
            ("b", none)] } false true false =
      .error (.unspecifiedReturn "A return type hint must be specified.") :=
  ⟨rfl, rfl⟩

/-- Claim C10: for every enforcer without a variadic-positional parameter,
supplying more positional values than there are `Arg` records (after the
self-like strip) makes `verify_args` raise the unhandled `IndexError` from
`self.args[i]` — not `ParameterTypeError` — and the decorator's wrapper
therefore fails with that `IndexError` no matter what the wrapped callable
would do, so the call never reaches the language's own arity error. -/
theorem claim_C10_oversupplied_indexerror (e : Enforcer) (vals : List PyVal)
    (kwargs : List (String × PyVal))
    (hvar : e.packed_args_name = none)
    (hlen : e.args.length < (stripSelf e vals kwargs).1.length) :
    e.verify_args vals kwargs = .error .indexError ∧
    ∀ g : List PyVal → List (String × PyVal) → PyVal,
      decoratedCall e g vals kwargs = .error .indexError := by
  have hverify : e.verify_args vals kwargs = .error .indexError := by
    unfold Enforcer.verify_args
    simp only [splitPackedArgs, hvar]
    rw [buildTraits_oversupply _ _ hlen]
  refine ⟨hverify, fun g => ?_⟩
  unfold decoratedCall
  rw [hverify]

/-- Claim C10 witness: the concrete callable `f(a: int, b: str)` called with
three positional values. -/
theorem claim_C10_witness :
    (mkEnforcer fArity false false false).verify_args
      [.VInt 1, .VStr "x", .VInt 3] [] = .error .indexError ∧
    decoratedCall (mkEnforcer fArity false false false) (fun _ _ => .VNone)
      [.VInt 1, .VStr "x", .VInt 3] [] = .error .indexError :=
  ⟨(claim_C10_oversupplied_indexerror (mkEnforcer fArity false false false)
      [.VInt 1, .VStr "x", .VInt 3] [] rfl (by decide)).1,
   (claim_C10_oversupplied_indexerror (mkEnforcer fArity false false false)
      [.VInt 1, .VStr "x", .VInt 3] [] rfl (by decide)).2 _⟩

end Typen
